import Mathlib

/-
Verification of the distributed admission-control / rate-limiting core of the
PDF accessibility pipeline.

The development shallowly embeds the relevant parts of the source:

* `RL` — `adobe-autotag-container/rate_limiter.py` (the dual-limit rate gate):
  the DynamoDB counter row semantics (`in_flight`, per-minute `rpm_window_…`
  rows, `file_…` tracking rows), the two conditional increments of
  `acquire_slot`, the unconditional decrements of `release_slot` and
  `_release_in_flight_only`, and the acquire retry loop.
* `FC` — `lambda/pdf-failure-cleanup/main.py` (the failure controller):
  the retry-count branch of `handler`, `move_pdf_to_queue_folder`,
  `move_pdf_to_failed_folder`, and `build_clean_failure_reason`.
* `RP` — `lambda/pdf-retry-processor/main.py` (the intake scheduler):
  the capacity reads with their 999 sentinel, `move_file_to_pdf_folder`,
  and the admission loops of `handler`.
* `RC` — `lambda/in-flight-reconciler/main.py` (the reconciler): the
  decision rules of `handler` and `reset_counter`.

Modelling conventions: DynamoDB rows are explicit record/function state;
machine integers are `Int`/`Nat`; strings are Lean `String`s manipulated
through their character lists (Python slicing and `startswith` are embedded
as `pyDrop`/`pyStartsWith`); wall-clock time is an explicit elapsed-seconds
counter and sleeps are uninterpreted positive durations supplied by an
environment; AWS calls that can raise are modelled as oracles
(`Except`/`Bool` parameters).  Store round-trips other than conditional-check
failures are assumed to succeed; paths that re-raise unexpected store errors
are outside the embedded state space and are noted where relevant.
-/

/-! ### Python string primitives -/

/-- Python `s.startswith(p)`, on Lean strings via their character data. -/
def pyStartsWith (s pat : String) : Bool := pat.data.isPrefixOf s.data

/-- Python slicing `s[n:]`. -/
def pyDrop (n : Nat) (s : String) : String := String.mk (s.data.drop n)

/-- Python `len(s)`. -/
def pyLen (s : String) : Nat := s.data.length

/-- Python `p in s` (substring containment) on character lists. -/
def containsSub (pat : List Char) : List Char → Bool
  | [] => pat.isEmpty
  | c :: rest => pat.isPrefixOf (c :: rest) || containsSub pat rest

/-- Python `s.strip()` on character lists: drop whitespace at both ends. -/
def pyStrip (s : List Char) : List Char :=
  ((s.dropWhile Char.isWhitespace).reverse.dropWhile Char.isWhitespace).reverse

/-- Python single-character `s.replace(a, b)` on character lists. -/
def replChar (a b : Char) (s : List Char) : List Char :=
  s.map fun c => if c = a then b else c

/-- Python single-character `s.replace(a, '')` (deletion) on character lists. -/
def delChar (a : Char) (s : List Char) : List Char :=
  s.filter fun c => ¬ c = a

/-- Python `os.path.basename`: the part after the last `/`. -/
def baseName (p : String) : String := (p.splitOn "/").getLastD p

/-! ### RL: the rate gate (`adobe-autotag-container/rate_limiter.py`) -/

namespace RL

/-- A `file_<rand8>_<basename>` tracking row of the rate-limit table
(`_track_file_in_flight`); the random key part is immaterial to the
embedded behaviour, which matches rows by `filename`/`api_type`. -/
structure FileRow where
  filename : String
  apiType : String
  released : Bool
deriving DecidableEq

/-- The rate-limit DynamoDB table state: the singleton `adobe_api_in_flight`
row's `in_flight` attribute (absent or an integer), the
`rpm_window_combined_<minute>` rows' `request_count` attributes keyed by
minute window, and the `file_…` tracking rows. -/
structure RLStore where
  in_flight : Option Int
  rpm : Nat → Option Int
  files : List FileRow

/-- Configuration of `acquire_slot`: whether `RATE_LIMIT_TABLE` is set, and
the SSM limits `get_max_in_flight()` / `get_max_rpm()`. -/
structure RLConfig where
  tableSet : Bool
  maxInFlight : Int
  maxRpm : Int

/-- Phase A of `acquire_slot` (rate_limiter.py lines 245-257): the
conditional update `SET in_flight = if_not_exists(in_flight, 0) + 1`
with condition `attribute_not_exists(in_flight) OR in_flight < :max`.
Returns the updated value and store on success, `none` on
`ConditionalCheckFailedException`. -/
def tryIncInFlight (maxIF : Int) (s : RLStore) : Option (Int × RLStore) :=
  match s.in_flight with
  | none => some (1, { s with in_flight := some 1 })
  | some v =>
      if v < maxIF then some (v + 1, { s with in_flight := some (v + 1) })
      else none

/-- Phase B of `acquire_slot` (rate_limiter.py lines 280-301): the
conditional update `SET #rc = if_not_exists(#rc, 0) + 1` on the current
minute window `w`, with condition
`attribute_not_exists(#rc) OR #rc < :max`. -/
def tryIncRpm (maxRpm : Int) (w : Nat) (s : RLStore) : Option (Int × RLStore) :=
  match s.rpm w with
  | none =>
      some (1, { s with rpm := fun w' => if w' = w then some 1 else s.rpm w' })
  | some v =>
      if v < maxRpm then
        some (v + 1,
          { s with rpm := fun w' => if w' = w then some (v + 1) else s.rpm w' })
      else none

/-- `_release_in_flight_only` (rate_limiter.py lines 337-355): the
unconditional update `SET in_flight = if_not_exists(in_flight, 1) - 1`,
used to compensate Phase A when Phase B fails. -/
def release_in_flight_only (s : RLStore) : RLStore :=
  { s with in_flight := some ((s.in_flight.getD 1) - 1) }

/-- The count `release_slot` logs after its decrement
(`max(0, int(response['Attributes'].get('in_flight', 0)))`,
rate_limiter.py line 439); the clamp applies only to this logged value. -/
def release_logged_count (s : RLStore) : Int :=
  max 0 ((s.in_flight.getD 1) - 1)

/-- `_track_file_in_flight` (rate_limiter.py lines 358-374): put a fresh
tracking row (basename of the file, api type, not released). -/
def track_file (fn api : String) (s : RLStore) : RLStore :=
  { s with files := s.files ++ [⟨baseName fn, api, false⟩] }

/-- Mark the first matching unreleased row as released — the scan-and-update
of `_untrack_file_in_flight` (rate_limiter.py lines 377-405). -/
def markFirstRelease (fname api : String) : List FileRow → List FileRow
  | [] => []
  | r :: rest =>
      if r.filename = fname ∧ r.apiType = api ∧ r.released = false then
        { r with released := true } :: rest
      else r :: markFirstRelease fname api rest

/-- `_untrack_file_in_flight`: scan for `filename`/`api_type` rows with no
`released` attribute and mark the first one released. -/
def untrack_file (fn api : String) (s : RLStore) : RLStore :=
  { s with files := markFirstRelease (baseName fn) api s.files }

/-- The `if filename:` tracking write on successful acquisition
(rate_limiter.py lines 308-309). -/
def trackOpt (fn : Option String) (api : String) (s : RLStore) : RLStore :=
  match fn with
  | some f => track_file f api s
  | none => s

/-- `release_slot` (rate_limiter.py lines 408-451): if the table is not
configured, return success untouched; otherwise decrement `in_flight`
unconditionally (`if_not_exists(in_flight, 1) - 1`) and, if a filename was
given, untrack its row.  The store-error path (log and return `False`)
is not modelled. -/
def release_slot (tableSet : Bool) (fn : Option String) (api : String)
    (s : RLStore) : Bool × RLStore :=
  if tableSet = false then (true, s)
  else
    let s1 := { s with in_flight := some ((s.in_flight.getD 1) - 1) }
    let s2 := match fn with
      | some f => untrack_file f api s1
      | none => s1
    (true, s2)

/-- Result of `acquire_slot`: `True` (slot acquired) or `False` (timed out). -/
inductive AcqOutcome where
  | acquired
  | timedOut
deriving DecidableEq

/-- One iteration's environment for the acquire loop: the current minute
window at Phase B, and the (positive, jittered) sleep durations the code
would incur if Phase A resp. Phase B fails this iteration
(rate_limiter.py lines 265-267 and 319-322). -/
structure AttemptEnv where
  window : Nat
  failASleep : Nat
  failBSleep : Nat

/-- The `while (time.time() - start_time) < max_wait_seconds` loop of
`acquire_slot` (rate_limiter.py lines 239-331): attempt Phase A, on
condition failure back off and retry; then Phase B, on condition failure
compensate via `_release_in_flight_only`, wait for the next minute window
and retry; on success write the optional tracking row and return `True`.
`elapsed` is the seconds since `start_time`; the attempt environments
supply the per-iteration window and sleep durations (an empty list models
an exhausted schedule and can only postpone the timeout). -/
def acquireGo (cfg : RLConfig) (maxWait : Nat) (fn : Option String)
    (api : String) : List AttemptEnv → Nat → RLStore → AcqOutcome × RLStore
  | [], _, s => (.timedOut, s)
  | env :: rest, elapsed, s =>
    if maxWait ≤ elapsed then (.timedOut, s)
    else
      match tryIncInFlight cfg.maxInFlight s with
      | none => acquireGo cfg maxWait fn api rest (elapsed + env.failASleep) s
      | some (_, s1) =>
        match tryIncRpm cfg.maxRpm env.window s1 with
        | some (_, s2) => (.acquired, trackOpt fn api s2)
        | none =>
            acquireGo cfg maxWait fn api rest (elapsed + env.failBSleep)
              (release_in_flight_only s1)

/-- `acquire_slot` (rate_limiter.py lines 205-334): if `RATE_LIMIT_TABLE`
is not set, skip rate limiting and return `True` immediately; otherwise
run the retry loop.  `jitter` is the initial random sleep
(`uniform(0, 0.5)`), so the elapsed time at the first loop-guard check
is already `jitter`. -/
def acquire_slot (cfg : RLConfig) (maxWait jitter : Nat)
    (envs : List AttemptEnv) (fn : Option String) (api : String)
    (s : RLStore) : AcqOutcome × RLStore :=
  if cfg.tableSet = false then (.acquired, s)
  else acquireGo cfg maxWait fn api envs jitter s

end RL

/-! ### FC: the failure controller (`lambda/pdf-failure-cleanup/main.py`) -/

namespace FC

/-- The S3 object metadata the failure controller reads and writes:
the `retry-count` attribute and the `max-retries-exceeded` marker. -/
structure ObjMeta where
  retryCount : Nat
  maxRetriesExceeded : Bool
deriving DecidableEq

/-- The bucket as a map from key to object metadata (absent = no object). -/
def S3F := String → Option ObjMeta

/-- `get_retry_count` (main.py lines 101-115): read `retry-count` from the
object's metadata, defaulting to 0 when absent or on a 404. -/
def get_retry_count (s3 : S3F) (k : String) : Nat :=
  match s3 k with
  | some m => m.retryCount
  | none => 0

/-- `move_pdf_to_queue_folder` (main.py lines 118-162): require a `pdf/`
key, copy to `queue/` + sub-path with metadata
`retry-count := retry_count + 1` (REPLACE directive), then delete the
original.  `cf`/`df` inject `ClientError` on the copy resp. delete call;
either error returns `None` with the store as mutated so far. -/
def move_pdf_to_queue_folder (s3 : S3F) (cf df : Bool) (pdf_key : String)
    (retry_count : Nat) : Option String × S3F :=
  if pyStartsWith pdf_key "pdf/" = false then (none, s3)
  else
    let queue_key := "queue/" ++ pyDrop 4 pdf_key
    if cf then (none, s3)
    else
      let s3a : S3F := fun k =>
        if k = queue_key then some ⟨retry_count + 1, false⟩ else s3 k
      if df then (none, s3a)
      else (some queue_key, fun k => if k = pdf_key then none else s3a k)

/-- `move_pdf_to_failed_folder` (main.py lines 165-206): require a `pdf/`
key, copy to `failed/` + sub-path with metadata `retry-count` unchanged
and the `max-retries-exceeded` marker, then delete the original. -/
def move_pdf_to_failed_folder (s3 : S3F) (cf df : Bool) (pdf_key : String)
    (retry_count : Nat) : Option String × S3F :=
  if pyStartsWith pdf_key "pdf/" = false then (none, s3)
  else
    let failed_key := "failed/" ++ pyDrop 4 pdf_key
    if cf then (none, s3)
    else
      let s3a : S3F := fun k =>
        if k = failed_key then some ⟨retry_count, true⟩ else s3 k
      if df then (none, s3a)
      else (some failed_key, fun k => if k = pdf_key then none else s3a k)

/-- Routing outcome of the failure-cleanup `handler`: the action tag, the
destination keys, the retry count it reports (`retry_count + 1`), the
`max_retries_exceeded` flag, and the resulting bucket. -/
structure RouteResult where
  action : String
  queueKey : Option String
  failedKey : Option String
  retryCountReported : Nat
  maxRetriesExceeded : Bool
  s3 : S3F

/-- The retry-count branch of `handler` (main.py lines 694-735 together
with the record/response fields of lines 748-795): read the stored
retry count, and either move to `failed/` (`retry_count >= max_retries`)
or to `queue/` (otherwise); a failed move leaves the file in place with
action `MOVE_FAILED_LEFT_IN_PLACE`. -/
def handler_route (s3 : S3F) (cf df : Bool) (pdf_key : String)
    (max_retries : Nat) : RouteResult :=
  let rc := get_retry_count s3 pdf_key
  if max_retries ≤ rc then
    match move_pdf_to_failed_folder s3 cf df pdf_key rc with
    | (some fk, s3') => ⟨"MOVED_TO_FAILED", none, some fk, rc + 1, true, s3'⟩
    | (none, s3') =>
        ⟨"MOVE_FAILED_LEFT_IN_PLACE", none, none, rc + 1, true, s3'⟩
  else
    match move_pdf_to_queue_folder s3 cf df pdf_key rc with
    | (some qk, s3') => ⟨"MOVED_TO_QUEUE", some qk, none, rc + 1, false, s3'⟩
    | (none, s3') =>
        ⟨"MOVE_FAILED_LEFT_IN_PLACE", none, none, rc + 1, false, s3'⟩

/-- The scanner behind `re.search(r'"errorMessage"\s*:\s*"([^"]+)"', …)`:
try to match the pattern at the head of the list, returning the capture
group (the non-empty run of non-quote characters). -/
def matchEMAt (s : List Char) : Option (List Char) :=
  if ("\"errorMessage\"".toList).isPrefixOf s then
    let s1 := s.drop (pyLen "\"errorMessage\"")
    let s2 := s1.dropWhile Char.isWhitespace
    match s2 with
    | ':' :: s3 =>
      let s4 := s3.dropWhile Char.isWhitespace
      match s4 with
      | '"' :: s5 =>
        let cap := s5.takeWhile fun c => ¬ c = '"'
        if cap.length = 0 then none
        else
          match s5.drop cap.length with
          | '"' :: _ => some cap
          | _ => none
      | _ => none
    | _ => none
  else none

/-- `re.search` of the `errorMessage` pattern: first match anywhere. -/
def searchEM : List Char → Option (List Char)
  | [] => none
  | c :: rest =>
    match matchEMAt (c :: rest) with
    | some r => some r
    | none => searchEM rest

/-- The fallback tail of `build_clean_failure_reason` (main.py lines
358-361): strip quotes, backslashes and braces, return the whole stripped
string if shorter than 200 characters, else its first 200 characters,
whitespace-stripped, with `"..."` appended. -/
def fallbackClean (cause : List Char) : List Char :=
  let clean_cause :=
    delChar '\x7d' (delChar '\x7b' (delChar '\\' (replChar '"' '\'' cause)))
  if clean_cause.length < 200 then pyStrip clean_cause
  else pyStrip (clean_cause.take 200) ++ "...".toList

/-- `build_clean_failure_reason` (main.py lines 321-361).  The two helpers
it calls on the `States.TaskFailed` path wrap JSON parsing and CloudWatch
queries and are passed as oracles: `ecsDetails` stands for
`extract_ecs_failure_details` (total: it catches its own exceptions and
returns container name and stopped reason) and `logLookup` for the result
of `lookup_ecs_error_from_logs`. -/
def build_clean_failure_reason (ecsDetails : List Char → List Char × List Char)
    (logLookup : Option (List Char)) (cause : List Char) : List Char :=
  if containsSub "States.Timeout".toList cause then "Task timed out".toList
  else if containsSub "States.TaskFailed".toList cause then
    let cn := (ecsDetails cause).1
    let sr := (ecsDetails cause).2
    match logLookup with
    | some actual_error =>
      let ce := delChar '\\' (replChar '"' '\'' actual_error)
      let ce2 := if 200 < ce.length then ce.take 200 ++ "...".toList else ce
      "ECS Task Failed (".toList ++ cn ++ "): ".toList ++ ce2
    | none =>
      let cr := delChar '\\' (replChar '"' '\'' sr)
      "ECS Task Failed (".toList ++ cn ++ "): ".toList ++ cr
  else if containsSub "Lambda.ServiceException".toList cause then
    "Lambda service error".toList
  else if containsSub "Lambda.AWSLambdaException".toList cause then
    "Lambda execution error".toList
  else
    let emHit := containsSub "\x7b\"errorMessage\"".toList cause
      || containsSub "\"errorMessage\"".toList cause
    (if emHit then
      match searchEM cause with
      | some m =>
        let em := delChar '\\' m
        let em2 := if 200 < em.length then em.take 200 ++ "...".toList else em
        some ("Error: ".toList ++ em2)
      | none => none
     else none).getD (fallbackClean cause)

end FC

/-! ### RP: the intake scheduler (`lambda/pdf-retry-processor/main.py`) -/

namespace RP

/-- `get_current_in_flight` (main.py lines 102-114): `999` when
`RATE_LIMIT_TABLE` is unset or the read raises; `0` when the counter row
is absent; otherwise the stored value. -/
def getCurrentInFlight (tableSet : Bool) (read : Except Unit (Option Int)) :
    Int :=
  if tableSet = false then 999
  else
    match read with
    | .error _ => 999
    | .ok none => 0
    | .ok (some v) => v

/-- `get_running_executions_count` (main.py lines 117-134): `999` when
`STATE_MACHINE_ARN` is unset or the call raises; otherwise the number of
running executions. -/
def getRunningExecutions (smSet : Bool) (read : Except Unit Nat) : Int :=
  if smSet = false then 999
  else
    match read with
    | .error _ => 999
    | .ok n => (n : Int)

/-- `move_file_to_pdf_folder` (main.py lines 194-229): require the source
key to carry the source folder, copy to `pdf/` + sub-path, then delete
the source.  `cFail`/`dFail` inject `ClientError` on the copy resp.
delete call; either error returns `None` with the bucket as mutated so
far (a copy already made is not rolled back). -/
def move_file_to_pdf_folder (s3 : List String) (cFail dFail : String → Bool)
    (srcKey pfx : String) : Option String × List String :=
  if pyStartsWith srcKey pfx = false then (none, s3)
  else
    let pdfKey := "pdf/" ++ pyDrop (pyLen pfx) srcKey
    if cFail srcKey then (none, s3)
    else
      let s3a := pdfKey :: s3
      if dFail srcKey then (none, s3a)
      else (some pdfKey, s3a.erase srcKey)

/-- The admission loop of `handler` (main.py lines 323-338 and 350-365):
for each listed file, stop once `files_per_batch` items are admitted,
otherwise attempt the move and append to `processed_files` only on
success — a failed move is skipped and the loop continues. -/
def admitLoop (cFail dFail : String → Bool) (pfx : String) (batch : Nat) :
    List String → List String → List String → List String × List String
  | [], s3, acc => (s3, acc)
  | f :: rest, s3, acc =>
    if batch ≤ acc.length then (s3, acc)
    else
      match move_file_to_pdf_folder s3 cFail dFail f pfx with
      | (some _, s3') => admitLoop cFail dFail pfx batch rest s3' (acc ++ [f])
      | (none, s3') => admitLoop cFail dFail pfx batch rest s3' acc

/-- Environment of one scheduler invocation: configuration presence flags,
the backoff read's result, the two capacity reads, the (oldest-first)
listings of `retry/` and `queue/`, the copy/delete fault oracles, and the
bucket contents. -/
structure RPEnv where
  bucketSet : Bool
  tableSet : Bool
  smSet : Bool
  backoffRemaining : Nat
  inFlightRead : Except Unit (Option Int)
  runningRead : Except Unit Nat
  retryListing : List String
  queueListing : List String
  cFail : String → Bool
  dFail : String → Bool
  s3 : List String

/-- The SSM tuning knobs of `get_config` (main.py lines 92-99). -/
structure RPConfig where
  maxInFlight : Int
  maxExecutions : Int
  batchSize : Nat
  batchSizeLow : Nat

/-- The handler's response `action` field. -/
inductive RPAction where
  | err500
  | skipped
  | processed
  | noFiles
deriving DecidableEq

/-- The fields of the handler response relevant here, plus the bucket. -/
structure RPResult where
  action : RPAction
  filesProcessed : Nat
  s3 : List String

/-- `handler` (main.py lines 232-394): missing bucket → error; active
global backoff → `SKIPPED`; in-flight or running-executions at/above
threshold → `SKIPPED`; otherwise pick the batch size
(`batch_size_low` under low load), admit from `retry/` first, then from
`queue/` with the remaining capacity (listing `remaining + 10` keys). -/
def handler (env : RPEnv) (cfg : RPConfig) : RPResult :=
  if env.bucketSet = false then ⟨.err500, 0, env.s3⟩
  else if 0 < env.backoffRemaining then ⟨.skipped, 0, env.s3⟩
  else
    let inFlight := getCurrentInFlight env.tableSet env.inFlightRead
    let running := getRunningExecutions env.smSet env.runningRead
    if cfg.maxInFlight ≤ inFlight then ⟨.skipped, 0, env.s3⟩
    else if cfg.maxExecutions ≤ running then ⟨.skipped, 0, env.s3⟩
    else
      let batch := if running < 10 ∧ inFlight < 3 then cfg.batchSizeLow
        else cfg.batchSize
      let r1 := admitLoop env.cFail env.dFail "retry/" batch
        (env.retryListing.take batch) env.s3 []
      let rem := batch - r1.2.length
      let r2 :=
        if 0 < rem then
          admitLoop env.cFail env.dFail "queue/" batch
            (env.queueListing.take (rem + 10)) r1.1 r1.2
        else r1
      ⟨if 0 < r2.2.length then .processed else .noFiles, r2.2.length, r2.1⟩

end RP

/-! ### RC: the reconciler (`lambda/in-flight-reconciler/main.py`) -/

namespace RC

/-- The handler's `action_taken` values (plus the disabled early return). -/
inductive Action where
  | disabled
  | noAction
  | resetToZero
  | resetToTracked
  | resetNegative
deriving DecidableEq

/-- Reconciler outcome: the action taken and the counter value afterwards. -/
structure Result where
  action : Action
  counterAfter : Int
deriving DecidableEq

/-- The decision rules of `handler` (main.py lines 258-276), exactly as
nested in the source: all three cases live under `if counter_value > 0`;
case 1 resets to 0 when nothing is running, case 2 resets to
`max(0, tracked_files)` when the counter exceeds `tracked + max_drift`,
and case 3 (`counter_value < 0`) resets to 0. -/
def decide_reset (counter tracked ecs sfn maxDrift : Int) :
    Option (Action × Int) :=
  if 0 < counter then
    if ecs = 0 ∧ sfn = 0 then some (.resetToZero, 0)
    else if tracked + maxDrift < counter then
      some (.resetToTracked, max 0 tracked)
    else if counter < 0 then some (.resetNegative, 0)
    else none
  else none

/-- `handler` (main.py lines 219-305): return early when disabled via SSM;
otherwise apply the decision rules and, when a reset is chosen, write the
new value via `reset_counter` (modelled as succeeding). -/
def run (enabled : Bool) (counter tracked ecs sfn maxDrift : Int) : Result :=
  if enabled = false then ⟨.disabled, counter⟩
  else
    match decide_reset counter tracked ecs sfn maxDrift with
    | some (a, v) => ⟨a, v⟩
    | none => ⟨.noAction, counter⟩

end RC

/-! ### Concrete example inputs used by counterexamples and witnesses -/

/-- An empty rate-limit table: no counter row, no windows, no tracking rows. -/
def RL.emptyStore : RL.RLStore := ⟨none, fun _ => none, []⟩

/-- A rate-limit table whose in-flight counter currently stores 0. -/
def RL.zeroStore : RL.RLStore := ⟨some 0, fun _ => none, []⟩

/-- A bucket holding one processing-area object with `retry-count` 2. -/
def FC.bucketRc2 : FC.S3F :=
  fun k => if k = "pdf/a/x.pdf" then some ⟨2, false⟩ else none

/-- A bucket holding one processing-area object with `retry-count` 1. -/
def FC.bucketRc1 : FC.S3F :=
  fun k => if k = "pdf/a/x.pdf" then some ⟨1, false⟩ else none

/-- A raw failure cause of 300 `a`s (no recognized failure shape). -/
def FC.longCause : List Char := List.replicate 300 'a'

/-- A scheduler environment with capacity, two items listed in `retry/`,
and a copy fault injected on the first of them. -/
def RP.envTwoRetry : RP.RPEnv :=
  ⟨true, true, true, 0, .ok (some 0), .ok 0,
    ["retry/a.pdf", "retry/b.pdf"], [],
    (fun k => k == "retry/a.pdf"), (fun _ => false),
    ["retry/a.pdf", "retry/b.pdf"]⟩

/-- The default scheduler tuning values (main.py lines 54-57). -/
def RP.defaultCfg : RP.RPConfig := ⟨10, 50, 5, 10⟩

/-- A scheduler environment whose rate-limit table is not configured. -/
def RP.envNoTable : RP.RPEnv :=
  ⟨true, false, true, 0, .ok none, .ok 0, [], [],
    (fun _ => false), (fun _ => false), []⟩

/-! ### Helper lemmas -/

theorem tryIncInFlight_bound {maxIF : Int} {s : RL.RLStore} {v : Int}
    {s' : RL.RLStore} (hIF : 1 ≤ maxIF)
    (h : RL.tryIncInFlight maxIF s = some (v, s')) :
    s'.in_flight = some v ∧ v ≤ maxIF := by
  unfold RL.tryIncInFlight at h
  cases hs : s.in_flight with
  | none =>
      rw [hs] at h
      simp only [Option.some.injEq, Prod.mk.injEq] at h
      obtain ⟨h1, h2⟩ := h
      subst h1; subst h2
      exact ⟨rfl, hIF⟩
  | some v0 =>
      rw [hs] at h
      by_cases hv : v0 < maxIF
      · simp only [hv, if_true, Option.some.injEq, Prod.mk.injEq] at h
        obtain ⟨h1, h2⟩ := h
        subst h1; subst h2
        exact ⟨rfl, by omega⟩
      · simp [hv] at h

theorem tryIncRpm_bound {maxRpm : Int} {w : Nat} {s : RL.RLStore} {v : Int}
    {s' : RL.RLStore} (hR : 1 ≤ maxRpm)
    (h : RL.tryIncRpm maxRpm w s = some (v, s')) :
    s'.rpm w = some v ∧ v ≤ maxRpm := by
  unfold RL.tryIncRpm at h
  cases hs : s.rpm w with
  | none =>
      rw [hs] at h
      simp only [Option.some.injEq, Prod.mk.injEq] at h
      obtain ⟨h1, h2⟩ := h
      subst h1; subst h2
      exact ⟨by simp, hR⟩
  | some v0 =>
      rw [hs] at h
      by_cases hv : v0 < maxRpm
      · simp only [hv, if_true, Option.some.injEq, Prod.mk.injEq] at h
        obtain ⟨h1, h2⟩ := h
        subst h1; subst h2
        exact ⟨by simp, by omega⟩
      · simp [hv] at h

theorem tryIncRpm_in_flight {maxRpm : Int} {w : Nat} {s : RL.RLStore}
    {v : Int} {s' : RL.RLStore}
    (h : RL.tryIncRpm maxRpm w s = some (v, s')) :
    s'.in_flight = s.in_flight := by
  unfold RL.tryIncRpm at h
  cases hs : s.rpm w with
  | none =>
      rw [hs] at h
      simp only [Option.some.injEq, Prod.mk.injEq] at h
      rw [← h.2]
  | some v0 =>
      rw [hs] at h
      by_cases hv : v0 < maxRpm
      · simp only [hv, if_true, Option.some.injEq, Prod.mk.injEq] at h
        rw [← h.2]
      · simp [hv] at h

theorem trackOpt_in_flight (fn : Option String) (api : String)
    (s : RL.RLStore) : (RL.trackOpt fn api s).in_flight = s.in_flight := by
  cases fn <;> rfl

/-- Any successful run of the acquire loop leaves the stored in-flight
counter at the value committed by its final Phase A update, which is
within the configured bound. -/
theorem acquireGo_acquired_in_flight {maxIF maxRpm : Int}
    (hIF : 1 ≤ maxIF) {maxWait : Nat} {fn : Option String} {api : String} :
    ∀ (envs : List RL.AttemptEnv) (elapsed : Nat) (s sF : RL.RLStore),
    RL.acquireGo ⟨true, maxIF, maxRpm⟩ maxWait fn api envs elapsed s
      = (.acquired, sF) →
    ∃ v, sF.in_flight = some v ∧ v ≤ maxIF := by
  intro envs
  induction envs with
  | nil => intro elapsed s sF h; simp [RL.acquireGo] at h
  | cons env rest ih =>
      intro elapsed s sF h
      rw [RL.acquireGo] at h
      by_cases hg : maxWait ≤ elapsed
      · simp [hg] at h
      · rw [if_neg hg] at h
        split at h
        · exact ih _ _ _ h
        · rename_i v1 s1 hA
          split at h
          · rename_i v2 s2 hB
            simp only [Prod.mk.injEq] at h
            obtain ⟨-, h2⟩ := h
            refine ⟨v1, ?_, (tryIncInFlight_bound hIF hA).2⟩
            rw [← h2, trackOpt_in_flight, tryIncRpm_in_flight hB,
              (tryIncInFlight_bound hIF hA).1]
          · exact ih _ _ _ h

theorem length_dropWhile_le {α : Type} (p : α → Bool) (l : List α) :
    (l.dropWhile p).length ≤ l.length := by
  induction l with
  | nil => simp [List.dropWhile]
  | cons a l ih =>
      cases h : p a
      · simp [List.dropWhile, h]
      · simp only [List.dropWhile, h]
        exact Nat.le_succ_of_le ih

theorem pyStrip_length_le (l : List Char) : (pyStrip l).length ≤ l.length := by
  unfold pyStrip
  rw [List.length_reverse]
  calc ((l.dropWhile Char.isWhitespace).reverse.dropWhile
          Char.isWhitespace).length
      ≤ (l.dropWhile Char.isWhitespace).reverse.length :=
        length_dropWhile_le _ _
    _ = (l.dropWhile Char.isWhitespace).length := List.length_reverse _
    _ ≤ l.length := length_dropWhile_le _ _

theorem fallbackClean_length_le (cause : List Char) :
    (FC.fallbackClean cause).length ≤ 203 := by
  unfold FC.fallbackClean
  set cc := delChar '\x7d'
    (delChar '\x7b' (delChar '\\' (replChar '"' '\'' cause))) with hcc
  by_cases hlen : cc.length < 200
  · rw [if_pos hlen]
    calc (pyStrip cc).length ≤ cc.length := pyStrip_length_le _
      _ ≤ 203 := by omega
  · rw [if_neg hlen]
    rw [List.length_append]
    have h1 : (pyStrip (cc.take 200)).length ≤ 200 :=
      le_trans (pyStrip_length_le _) (cc.length_take_le 200)
    have h2 : ("...".toList).length = 3 := by decide
    omega

/-- The bucket state after one attempted move is the original bucket, the
original plus the `pdf/` copy, or the original plus the copy with the
source erased. -/
theorem move_file_s3_shape (s3 : List String) (cF dF : String → Bool)
    (f pfx : String) :
    (RP.move_file_to_pdf_folder s3 cF dF f pfx).2 = s3
    ∨ (RP.move_file_to_pdf_folder s3 cF dF f pfx).2
        = ("pdf/" ++ pyDrop (pyLen pfx) f) :: s3
    ∨ (RP.move_file_to_pdf_folder s3 cF dF f pfx).2
        = (("pdf/" ++ pyDrop (pyLen pfx) f) :: s3).erase f := by
  unfold RP.move_file_to_pdf_folder
  by_cases h1 : pyStartsWith f pfx = false
  · simp [h1]
  · rw [if_neg h1]
    by_cases h2 : cF f
    · simp [h2]
    · rw [if_neg h2]
      by_cases h3 : dF f
      · simp [h3]
      · simp [h3]

/-- Keys that are not among the files the admission loop attempts to move
survive the loop. -/
theorem admitLoop_mem (cF dF : String → Bool) (pfx : String) (batch : Nat) :
    ∀ (files s3 acc : List String) (k : String), k ∈ s3 → k ∉ files →
    k ∈ (RP.admitLoop cF dF pfx batch files s3 acc).1 := by
  intro files
  induction files with
  | nil => intro s3 acc k hk _; simpa [RP.admitLoop] using hk
  | cons f rest ih =>
      intro s3 acc k hk hnk
      have hkf : k ≠ f := fun hkf => hnk (hkf ▸ List.mem_cons_self f rest)
      have hknr : k ∉ rest := fun hr => hnk (List.mem_cons_of_mem f hr)
      rw [RP.admitLoop]
      by_cases hg : batch ≤ acc.length
      · rw [if_pos hg]; exact hk
      · rw [if_neg hg]
        have hmem2 : k ∈ (RP.move_file_to_pdf_folder s3 cF dF f pfx).2 := by
          rcases move_file_s3_shape s3 cF dF f pfx with h | h | h
          · rw [h]; exact hk
          · rw [h]; exact List.mem_cons_of_mem _ hk
          · rw [h]
            exact (List.mem_erase_of_ne hkf).mpr (List.mem_cons_of_mem _ hk)
        cases hmv : RP.move_file_to_pdf_folder s3 cF dF f pfx with
        | mk res s3' =>
            rw [hmv] at hmem2
            cases res with
            | some pk => exact ih s3' (acc ++ [f]) k hmem2 hknr
            | none => exact ih s3' acc k hmem2 hknr

/-! ### Claim theorems -/

/-- C1: whenever one of `acquire_slot`'s two conditional increments commits
(Phase A on `in_flight`, Phase B on the minute window's `request_count`),
the value it stores satisfies the configured bound (`in_flight ≤
MAX_IN_FLIGHT`, `request_count ≤ MAX_RPM`), each update being conditioned
on the counter being absent or strictly below its limit; consequently a
call of the acquire loop that returns success leaves the stored in-flight
counter within bound.  The bounds are assumed positive, as every
configured value of `MAX_IN_FLIGHT`/`MAX_RPM` is (defaults 50/150). -/
theorem c1_successful_acquire_within_bounds (maxIF maxRpm : Int) (w : Nat)
    (sA sB s sA' sB' sF : RL.RLStore) (vA vB : Int) (maxWait elapsed : Nat)
    (fn : Option String) (api : String) (envs : List RL.AttemptEnv)
    (hIF : 1 ≤ maxIF) (hR : 1 ≤ maxRpm)
    (hA : RL.tryIncInFlight maxIF sA = some (vA, sA'))
    (hB : RL.tryIncRpm maxRpm w sB = some (vB, sB'))
    (hAcq : RL.acquireGo ⟨true, maxIF, maxRpm⟩ maxWait fn api envs elapsed s
      = (.acquired, sF)) :
    (sA'.in_flight = some vA ∧ vA ≤ maxIF)
    ∧ (sB'.rpm w = some vB ∧ vB ≤ maxRpm)
    ∧ ∃ v, sF.in_flight = some v ∧ v ≤ maxIF :=
  ⟨tryIncInFlight_bound hIF hA, tryIncRpm_bound hR hB,
    acquireGo_acquired_in_flight hIF envs elapsed s sF hAcq⟩

/-- C1 witness: the empty store; Phase A commits 1 ≤ 50, Phase B commits
1 ≤ 150, and a one-attempt acquire succeeds within bounds. -/
theorem c1_witness :
    ((1 : Int) ≤ 50 ∧ (1 : Int) ≤ 150
      ∧ RL.tryIncInFlight 50 RL.emptyStore
          = some (1, ⟨some 1, fun _ => none, []⟩)
      ∧ RL.tryIncRpm 150 0 RL.emptyStore
          = some (1, ⟨none, fun w' => if w' = 0 then some 1 else none, []⟩)
      ∧ RL.acquireGo ⟨true, 50, 150⟩ 10 none "autotag" [⟨0, 2, 2⟩] 0
          RL.emptyStore
          = (.acquired, ⟨some 1, fun w' => if w' = 0 then some 1 else none, []⟩))
    ∧ (((⟨some 1, fun _ => none, []⟩ : RL.RLStore).in_flight = some 1
        ∧ (1 : Int) ≤ 50)
      ∧ (((⟨none, fun w' => if w' = 0 then some 1 else none, []⟩ :
            RL.RLStore).rpm 0) = some 1 ∧ (1 : Int) ≤ 150)
      ∧ ∃ v, (⟨some 1, fun w' => if w' = 0 then some 1 else none, []⟩ :
            RL.RLStore).in_flight = some v ∧ v ≤ 50) :=
  ⟨⟨by decide, by decide, rfl, rfl, rfl⟩,
    c1_successful_acquire_within_bounds 50 150 0 RL.emptyStore RL.emptyStore
      RL.emptyStore _ _ _ 1 1 10 0 none "autotag" [⟨0, 2, 2⟩]
      (by decide) (by decide) rfl rfl rfl⟩

/-- C2 counterexample: with the stored in-flight counter at 0, a
`release_slot` stores −1 — the decrement is not clamped at the store. -/
theorem c2_counterexample :
    ((RL.release_slot true none "adobe_api" RL.zeroStore).2).in_flight
      = some (-1)
    ∧ ¬ ((0 : Int) ≤ -1) := by
  constructor
  · rfl
  · decide

/-- C2 amended: both `release_slot` and the Phase-B compensation
`_release_in_flight_only` perform the unconditional update
`in_flight := if_not_exists(in_flight, 1) − 1` with no clamp on the
stored value — releasing with the counter at n stores n − 1 (so
releasing at 0 stores −1); only the count the code logs afterwards is
clamped at zero. -/
theorem c2_release_decrement_unclamped (s : RL.RLStore) (n : Int)
    (fn : Option String) (api : String) (h : s.in_flight = some n) :
    ((RL.release_slot true fn api s).2).in_flight = some (n - 1)
    ∧ (RL.release_in_flight_only s).in_flight = some (n - 1)
    ∧ RL.release_logged_count s = max 0 (n - 1) := by
  refine ⟨?_, ?_, ?_⟩
  · cases fn <;> simp [RL.release_slot, RL.untrack_file, h]
  · simp [RL.release_in_flight_only, h]
  · simp [RL.release_logged_count, h]

/-- C2 witness: the amended statement at a store whose counter is 0. -/
theorem c2_witness :
    RL.zeroStore.in_flight = some 0
    ∧ (((RL.release_slot true none "adobe_api" RL.zeroStore).2).in_flight
        = some (0 - 1)
      ∧ (RL.release_in_flight_only RL.zeroStore).in_flight = some (0 - 1)
      ∧ RL.release_logged_count RL.zeroStore = max 0 (0 - 1)) :=
  ⟨rfl, c2_release_decrement_unclamped RL.zeroStore 0 none "adobe_api" rfl⟩

/-- C6: the reconciler never resets a negative counter.  The
negative-counter rule (case 3 of the handler) is nested under
`if counter_value > 0`, so for every negative observed counter the
enabled reconciler takes no action and leaves the stored value negative —
contradicting the source's own intent (`shouldn't happen but let's
handle it`) and the spec's rule `counter < 0 → reset to 0`. -/
theorem c6_negative_counter_never_reset (counter tracked ecs sfn
    maxDrift : Int) (h : counter < 0) :
    RC.run true counter tracked ecs sfn maxDrift = ⟨.noAction, counter⟩ := by
  have h0 : ¬ (0 < counter) := by omega
  simp [RC.run, RC.decide_reset, h0]

/-- C6 witness: counter −1, nothing else matching any rule: no reset. -/
theorem c6_witness :
    (-1 : Int) < 0 ∧ RC.run true (-1) 0 1 1 5 = ⟨.noAction, -1⟩ :=
  ⟨by decide, c6_negative_counter_never_reset (-1) 0 1 1 5 (by decide)⟩

/-- C9: with `RATE_LIMIT_TABLE` unset, `acquire_slot` returns success
immediately with the store untouched (no counter read or write, no
tracking row), and `release_slot` returns success with the store
untouched. -/
theorem c9_no_table_skips_rate_limiting :
    ∀ (maxIF maxRpm : Int) (maxWait jitter : Nat)
      (envs : List RL.AttemptEnv) (fn : Option String) (api : String)
      (s : RL.RLStore),
      RL.acquire_slot ⟨false, maxIF, maxRpm⟩ maxWait jitter envs fn api s
        = (.acquired, s)
      ∧ RL.release_slot false fn api s = (true, s) := by
  intro maxIF maxRpm maxWait jitter envs fn api s
  exact ⟨rfl, rfl⟩

/-- C3 counterexample: stored retry-count 2 with `MAX_RETRIES` 3.  The
count including the current failure is 3 ≥ `MAX_RETRIES`, so the claim
predicts dead-letter, but the handler routes the item to the queue
(retry) branch: it compares the stored count alone against the limit. -/
theorem c3_counterexample :
    (FC.handler_route FC.bucketRc2 false false "pdf/a/x.pdf" 3).action
      = "MOVED_TO_QUEUE"
    ∧ (FC.handler_route FC.bucketRc2 false false "pdf/a/x.pdf" 3).failedKey
      = none
    ∧ (FC.handler_route FC.bucketRc2 false false "pdf/a/x.pdf"
        3).maxRetriesExceeded = false
    ∧ FC.get_retry_count FC.bucketRc2 "pdf/a/x.pdf" + 1 ≥ 3 := by
  refine ⟨?_, ?_, ?_, ?_⟩ <;> decide

/-- C3 amended: the failure controller takes the dead-letter branch iff
the stored retry-count (not including the current failure) is ≥
`MAX_RETRIES` — equivalently, iff the count including the current failure
is ≥ `MAX_RETRIES` + 1; otherwise it routes the item for retry. -/
theorem c3_dead_letter_iff_stored_count_at_max (s3 : FC.S3F) (k : String)
    (maxR : Nat) (hk : pyStartsWith k "pdf/" = true) :
    ((FC.handler_route s3 false false k maxR).action = "MOVED_TO_FAILED"
      ↔ maxR ≤ FC.get_retry_count s3 k)
    ∧ ((FC.handler_route s3 false false k maxR).action = "MOVED_TO_QUEUE"
      ↔ FC.get_retry_count s3 k < maxR) := by
  by_cases hc : maxR ≤ FC.get_retry_count s3 k
  · have hact : (FC.handler_route s3 false false k maxR).action
        = "MOVED_TO_FAILED" := by
      simp [FC.handler_route, hc, FC.move_pdf_to_failed_folder, hk]
    rw [hact]
    exact ⟨⟨fun _ => hc, fun _ => rfl⟩,
      ⟨fun h => absurd h (by decide), fun h => by omega⟩⟩
  · have hact : (FC.handler_route s3 false false k maxR).action
        = "MOVED_TO_QUEUE" := by
      simp [FC.handler_route, hc, FC.move_pdf_to_queue_folder, hk]
    rw [hact]
    exact ⟨⟨fun h => absurd h (by decide), fun h => absurd h hc⟩,
      ⟨fun _ => by omega, fun _ => rfl⟩⟩

/-- C3 witness: an item with no stored retry-count and `MAX_RETRIES` 3 is
routed for retry, not dead-letter. -/
theorem c3_witness :
    pyStartsWith "pdf/x.pdf" "pdf/" = true
    ∧ (((FC.handler_route (fun _ => none) false false "pdf/x.pdf" 3).action
        = "MOVED_TO_FAILED"
        ↔ 3 ≤ FC.get_retry_count (fun _ => none) "pdf/x.pdf")
      ∧ ((FC.handler_route (fun _ => none) false false "pdf/x.pdf" 3).action
        = "MOVED_TO_QUEUE"
        ↔ FC.get_retry_count (fun _ => none) "pdf/x.pdf" < 3)) :=
  ⟨by decide, c3_dead_letter_iff_stored_count_at_max (fun _ => none)
    "pdf/x.pdf" 3 (by decide)⟩

/-- C4 counterexample: a retryable failure (stored count 1, limit 3) does
copy the item with incremented count and delete the original, but the
destination is the `queue/` area and the reported action tag is
`MOVED_TO_QUEUE`, not `MOVED_TO_RETRY`. -/
theorem c4_counterexample :
    (FC.handler_route FC.bucketRc1 false false "pdf/a/x.pdf" 3).action
      = "MOVED_TO_QUEUE"
    ∧ ¬ ((FC.handler_route FC.bucketRc1 false false "pdf/a/x.pdf" 3).action
      = "MOVED_TO_RETRY")
    ∧ (FC.handler_route FC.bucketRc1 false false "pdf/a/x.pdf" 3).queueKey
      = some "queue/a/x.pdf"
    ∧ (FC.handler_route FC.bucketRc1 false false "pdf/a/x.pdf" 3).s3
        "queue/a/x.pdf" = some ⟨2, false⟩
    ∧ (FC.handler_route FC.bucketRc1 false false "pdf/a/x.pdf" 3).s3
        "pdf/a/x.pdf" = none := by
  refine ⟨?_, ?_, ?_, ?_, ?_⟩ <;> decide

/-- C4 amended: for every failure event with stored retry-count strictly
below `MAX_RETRIES` (and the copy and delete succeeding), the handler
copies the item to the `queue/` area preserving the sub-path, with the
stored retry-count incremented by one on the copy, deletes the
processing-area (`pdf/`) original, reports retry-count + 1, and returns
the action tag `MOVED_TO_QUEUE` (the code's name for the retry routing;
there is no `MOVED_TO_RETRY` tag). -/
theorem c4_retry_moves_to_queue (s3 : FC.S3F) (k : String) (maxR : Nat)
    (hk : pyStartsWith k "pdf/" = true)
    (hrc : FC.get_retry_count s3 k < maxR) :
    (FC.handler_route s3 false false k maxR).action = "MOVED_TO_QUEUE"
    ∧ (FC.handler_route s3 false false k maxR).queueKey
      = some ("queue/" ++ pyDrop 4 k)
    ∧ (FC.handler_route s3 false false k maxR).retryCountReported
      = FC.get_retry_count s3 k + 1
    ∧ (FC.handler_route s3 false false k maxR).s3
      = fun k' =>
          if k' = k then none
          else if k' = "queue/" ++ pyDrop 4 k then
            some ⟨FC.get_retry_count s3 k + 1, false⟩
          else s3 k' := by
  have hle : ¬ maxR ≤ FC.get_retry_count s3 k := by omega
  refine ⟨?_, ?_, ?_, ?_⟩ <;>
    simp [FC.handler_route, hle, FC.move_pdf_to_queue_folder, hk]

/-- C4 witness: the amended statement at `pdf/a/x.pdf` with stored count 1
and limit 3. -/
theorem c4_witness :
    (pyStartsWith "pdf/a/x.pdf" "pdf/" = true
      ∧ FC.get_retry_count FC.bucketRc1 "pdf/a/x.pdf" < 3)
    ∧ ((FC.handler_route FC.bucketRc1 false false "pdf/a/x.pdf" 3).action
        = "MOVED_TO_QUEUE"
      ∧ (FC.handler_route FC.bucketRc1 false false "pdf/a/x.pdf" 3).queueKey
        = some ("queue/" ++ pyDrop 4 "pdf/a/x.pdf")
      ∧ (FC.handler_route FC.bucketRc1 false false "pdf/a/x.pdf"
          3).retryCountReported
        = FC.get_retry_count FC.bucketRc1 "pdf/a/x.pdf" + 1
      ∧ (FC.handler_route FC.bucketRc1 false false "pdf/a/x.pdf" 3).s3
        = fun k' =>
            if k' = "pdf/a/x.pdf" then none
            else if k' = "queue/" ++ pyDrop 4 "pdf/a/x.pdf" then
              some ⟨FC.get_retry_count FC.bucketRc1 "pdf/a/x.pdf" + 1, false⟩
            else FC.bucketRc1 k') :=
  ⟨⟨by decide, by decide⟩,
    c4_retry_moves_to_queue FC.bucketRc1 "pdf/a/x.pdf" 3 (by decide)
      (by decide)⟩

theorem tryIncInFlight_succeeds {maxIF : Int} {s : RL.RLStore}
    (h : s.in_flight.getD 0 < maxIF) :
    ∃ v, RL.tryIncInFlight maxIF s
      = some (v, { s with in_flight := some v }) := by
  cases hs : s.in_flight with
  | none => exact ⟨1, by unfold RL.tryIncInFlight; rw [hs]⟩
  | some v0 =>
      refine ⟨v0 + 1, ?_⟩
      unfold RL.tryIncInFlight
      rw [hs]
      simp [show v0 < maxIF from by simpa [hs] using h]

theorem tryIncRpm_succeeds {maxRpm : Int} {w : Nat} {s : RL.RLStore}
    (h : (s.rpm w).getD 0 < maxRpm) :
    ∃ v, RL.tryIncRpm maxRpm w s
      = some (v, { s with
          rpm := fun w' => if w' = w then some v else s.rpm w' }) := by
  cases hs : s.rpm w with
  | none => exact ⟨1, by unfold RL.tryIncRpm; rw [hs]⟩
  | some v0 =>
      refine ⟨v0 + 1, ?_⟩
      unfold RL.tryIncRpm
      rw [hs]
      simp [show v0 < maxRpm from by simpa [hs] using h]

/-- C5 counterexample: two items listed in `retry/`, the copy of the first
fails.  The original stays in place, but admission does not stop: the
second item is still admitted (`files_processed = 1`, not 0). -/
theorem c5_counterexample :
    (RP.handler RP.envTwoRetry RP.defaultCfg).filesProcessed = 1
    ∧ ¬ ((RP.handler RP.envTwoRetry RP.defaultCfg).filesProcessed = 0)
    ∧ "retry/a.pdf" ∈ (RP.handler RP.envTwoRetry RP.defaultCfg).s3
    ∧ "pdf/b.pdf" ∈ (RP.handler RP.envTwoRetry RP.defaultCfg).s3 := by
  refine ⟨?_, ?_, ?_, ?_⟩ <;> decide

/-- C5 amended: when the copy of a chosen item fails, the original remains
in its source area and the item is not counted as admitted, but the
admission loop continues with the remaining listed items in the same
invocation (it does not stop at the first failed move). -/
theorem c5_failed_move_leaves_original_and_continues (cF dF : String → Bool)
    (pfx : String) (batch : Nat) (f : String) (rest : List String)
    (s3 acc : List String) (hfail : cF f = true) (hacc : acc.length < batch)
    (hmem : f ∈ s3) (hnr : f ∉ rest) :
    RP.admitLoop cF dF pfx batch (f :: rest) s3 acc
      = RP.admitLoop cF dF pfx batch rest s3 acc
    ∧ f ∈ (RP.admitLoop cF dF pfx batch rest s3 acc).1 := by
  constructor
  · rw [RP.admitLoop]
    rw [if_neg (by omega : ¬ batch ≤ acc.length)]
    have hmv : RP.move_file_to_pdf_folder s3 cF dF f pfx = (none, s3) := by
      unfold RP.move_file_to_pdf_folder
      by_cases h1 : pyStartsWith f pfx = false
      · simp [h1]
      · simp [h1, hfail]
    rw [hmv]
  · exact admitLoop_mem cF dF pfx batch rest s3 acc f hmem hnr

/-- C5 witness: the amended statement at the concrete two-item listing. -/
theorem c5_witness :
    ((fun k => k == "retry/a.pdf") "retry/a.pdf" = true
      ∧ ([] : List String).length < 5
      ∧ "retry/a.pdf" ∈ ["retry/a.pdf", "retry/b.pdf"]
      ∧ "retry/a.pdf" ∉ ["retry/b.pdf"])
    ∧ (RP.admitLoop (fun k => k == "retry/a.pdf") (fun _ => false) "retry/" 5
        ("retry/a.pdf" :: ["retry/b.pdf"]) ["retry/a.pdf", "retry/b.pdf"] []
        = RP.admitLoop (fun k => k == "retry/a.pdf") (fun _ => false)
            "retry/" 5 ["retry/b.pdf"] ["retry/a.pdf", "retry/b.pdf"] []
      ∧ "retry/a.pdf" ∈ (RP.admitLoop (fun k => k == "retry/a.pdf")
          (fun _ => false) "retry/" 5 ["retry/b.pdf"]
          ["retry/a.pdf", "retry/b.pdf"] []).1) :=
  ⟨⟨by decide, by decide, by decide, by decide⟩,
    c5_failed_move_leaves_original_and_continues _ _ "retry/" 5 "retry/a.pdf"
      ["retry/b.pdf"] ["retry/a.pdf", "retry/b.pdf"] [] (by decide)
      (by decide) (by decide) (by decide)⟩

/-- C7 counterexample: with `max_wait = 0` and an entirely empty store
(both counters strictly below their limits), `acquire_slot` still returns
timeout: the loop guard `elapsed < max_wait` fails before any attempt. -/
theorem c7_counterexample :
    RL.acquire_slot ⟨true, 50, 150⟩ 0 0 [⟨0, 2, 2⟩] none "autotag"
      RL.emptyStore = (.timedOut, RL.emptyStore)
    ∧ (RL.emptyStore.in_flight.getD 0 < 50
      ∧ (RL.emptyStore.rpm 0).getD 0 < 150)
    ∧ ¬ ((RL.acquire_slot ⟨true, 50, 150⟩ 0 0 [⟨0, 2, 2⟩] none "autotag"
        RL.emptyStore).1 = .acquired) := by
  exact ⟨rfl, by decide, by decide⟩

/-- C7 amended: with `max_wait = 0` the loop body never runs, so
`acquire_slot` returns timeout with the store untouched regardless of the
counters; when the loop is entered (initial elapsed jitter below
`max_wait`) and both the in-flight counter and the current window's
request count are strictly below their limits, the call succeeds on its
first attempt. -/
theorem c7_zero_wait_always_times_out (cfg : RL.RLConfig)
    (maxWait jitter jitter2 : Nat) (env : RL.AttemptEnv)
    (rest envs : List RL.AttemptEnv) (fn fn2 : Option String)
    (api api2 : String) (s s2 : RL.RLStore)
    (htab : cfg.tableSet = true) (hj : jitter2 < maxWait)
    (hIF : s2.in_flight.getD 0 < cfg.maxInFlight)
    (hR : (s2.rpm env.window).getD 0 < cfg.maxRpm) :
    RL.acquire_slot cfg 0 jitter envs fn api s = (.timedOut, s)
    ∧ (RL.acquire_slot cfg maxWait jitter2 (env :: rest) fn2 api2 s2).1
      = .acquired := by
  constructor
  · unfold RL.acquire_slot
    rw [if_neg (by simp [htab])]
    cases envs with
    | nil => rfl
    | cons e es =>
        rw [RL.acquireGo]
        rw [if_pos (Nat.zero_le _)]
  · unfold RL.acquire_slot
    rw [if_neg (by simp [htab])]
    rw [RL.acquireGo]
    rw [if_neg (by omega)]
    obtain ⟨v1, hA⟩ := tryIncInFlight_succeeds hIF
    simp only [hA]
    obtain ⟨v2, hB⟩ := tryIncRpm_succeeds
      (show (({ s2 with in_flight := some v1 } : RL.RLStore).rpm
        env.window).getD 0 < cfg.maxRpm from hR)
    simp only [hB]

/-- C7 witness: both parts at concrete inputs — timeout at `max_wait = 0`
on the empty store, and first-attempt success with `max_wait = 10`. -/
theorem c7_witness :
    ((⟨true, 50, 150⟩ : RL.RLConfig).tableSet = true
      ∧ (0 : Nat) < 10
      ∧ RL.emptyStore.in_flight.getD 0
        < (⟨true, 50, 150⟩ : RL.RLConfig).maxInFlight
      ∧ (RL.emptyStore.rpm (⟨0, 2, 2⟩ : RL.AttemptEnv).window).getD 0
        < (⟨true, 50, 150⟩ : RL.RLConfig).maxRpm)
    ∧ (RL.acquire_slot ⟨true, 50, 150⟩ 0 3 [] none "extract" RL.emptyStore
        = (.timedOut, RL.emptyStore)
      ∧ (RL.acquire_slot ⟨true, 50, 150⟩ 10 0 [⟨0, 2, 2⟩] none "extract"
          RL.emptyStore).1 = .acquired) :=
  ⟨⟨rfl, by decide, by decide, by decide⟩,
    c7_zero_wait_always_times_out ⟨true, 50, 150⟩ 10 3 0 ⟨0, 2, 2⟩ [] []
      none none "extract" "extract" RL.emptyStore RL.emptyStore rfl
      (by decide) (by decide) (by decide)⟩

set_option maxRecDepth 20000 in
/-- C8 counterexample: a 300-character raw cause with no recognized shape.
The fallback strips nothing (no quotes or braces present), truncates to
200 characters and appends `"..."`, so the result has 203 characters —
more than the claimed 200. -/
theorem c8_counterexample :
    (FC.build_clean_failure_reason (fun _ => ([], [])) none
      FC.longCause).length = 203
    ∧ ¬ ((FC.build_clean_failure_reason (fun _ => ([], [])) none
        FC.longCause).length ≤ 200) := by
  refine ⟨?_, ?_⟩ <;> decide

/-- C8 amended: when the raw cause matches none of the recognized shapes
(no timeout, task-failed, service-exception or error-message pattern),
`build_clean_failure_reason` returns the quote/backslash/brace-stripped
input — whole and whitespace-stripped if shorter than 200 characters,
otherwise its first 200 characters whitespace-stripped with `"..."`
appended — so this fallback result has at most 203 characters (not 200;
and the task-failed path is not truncated at all). -/
theorem c8_fallback_truncation (ed : List Char → List Char × List Char)
    (ll : Option (List Char)) (cause : List Char)
    (hTO : containsSub "States.Timeout".toList cause = false)
    (hTF : containsSub "States.TaskFailed".toList cause = false)
    (hSE : containsSub "Lambda.ServiceException".toList cause = false)
    (hAE : containsSub "Lambda.AWSLambdaException".toList cause = false)
    (hEM : FC.searchEM cause = none) :
    FC.build_clean_failure_reason ed ll cause = FC.fallbackClean cause
    ∧ (FC.build_clean_failure_reason ed ll cause).length ≤ 203 := by
  have heq : FC.build_clean_failure_reason ed ll cause
      = FC.fallbackClean cause := by
    unfold FC.build_clean_failure_reason
    rw [hTO, hTF, hSE, hAE]
    simp only [Bool.false_eq_true, if_false]
    cases hb : (containsSub "\x7b\"errorMessage\"".toList cause
        || containsSub "\"errorMessage\"".toList cause) <;> simp [hb, hEM]
  exact ⟨heq, heq ▸ fallbackClean_length_le cause⟩

/-- C8 witness: the amended statement at the short shapeless cause `boom`. -/
theorem c8_witness :
    (containsSub "States.Timeout".toList "boom".toList = false
      ∧ containsSub "States.TaskFailed".toList "boom".toList = false
      ∧ containsSub "Lambda.ServiceException".toList "boom".toList = false
      ∧ containsSub "Lambda.AWSLambdaException".toList "boom".toList = false
      ∧ FC.searchEM "boom".toList = none)
    ∧ (FC.build_clean_failure_reason (fun _ => ([], [])) none "boom".toList
        = FC.fallbackClean "boom".toList
      ∧ (FC.build_clean_failure_reason (fun _ => ([], [])) none
          "boom".toList).length ≤ 203) :=
  ⟨⟨by decide, by decide, by decide, by decide, by decide⟩,
    c8_fallback_truncation (fun _ => ([], [])) none "boom".toList (by decide)
      (by decide) (by decide) (by decide) (by decide)⟩

/-- C10: if the in-flight read or the running-executions read fails
(missing configuration or store error), that read returns the sentinel
999, and — both thresholds being at most 999 — the scheduler invocation
returns `SKIPPED` with zero admissions and the bucket untouched. -/
theorem c10_capacity_read_failure_skips (env : RP.RPEnv) (cfg : RP.RPConfig)
    (hb : env.bucketSet = true)
    (hfail : env.tableSet = false ∨ env.inFlightRead = .error ()
      ∨ env.smSet = false ∨ env.runningRead = .error ())
    (h1 : cfg.maxInFlight ≤ 999) (h2 : cfg.maxExecutions ≤ 999) :
    (RP.handler env cfg).action = .skipped
    ∧ (RP.handler env cfg).filesProcessed = 0
    ∧ (RP.handler env cfg).s3 = env.s3
    ∧ (RP.getCurrentInFlight env.tableSet env.inFlightRead = 999
      ∨ RP.getRunningExecutions env.smSet env.runningRead = 999) := by
  have hsent : RP.getCurrentInFlight env.tableSet env.inFlightRead = 999
      ∨ RP.getRunningExecutions env.smSet env.runningRead = 999 := by
    rcases hfail with h | h | h | h
    · exact Or.inl (by simp [RP.getCurrentInFlight, h])
    · refine Or.inl ?_
      by_cases ht : env.tableSet = false <;>
        simp [RP.getCurrentInFlight, ht, h]
    · exact Or.inr (by simp [RP.getRunningExecutions, h])
    · refine Or.inr ?_
      by_cases ht : env.smSet = false <;>
        simp [RP.getRunningExecutions, ht, h]
  have hres : RP.handler env cfg = ⟨.skipped, 0, env.s3⟩ := by
    by_cases hback : 0 < env.backoffRemaining
    · simp [RP.handler, hb, hback]
    · rcases hsent with hs | hs
      · have hcond : cfg.maxInFlight
            ≤ RP.getCurrentInFlight env.tableSet env.inFlightRead := by
          rw [hs]; exact h1
        simp [RP.handler, hb, hback, hcond]
      · by_cases hin : cfg.maxInFlight
            ≤ RP.getCurrentInFlight env.tableSet env.inFlightRead
        · simp [RP.handler, hb, hback, hin]
        · have hcond : cfg.maxExecutions
              ≤ RP.getRunningExecutions env.smSet env.runningRead := by
            rw [hs]; exact h2
          simp [RP.handler, hb, hback, hin, hcond]
  exact ⟨by rw [hres], by rw [hres], by rw [hres], hsent⟩

/-- C10 witness: `RATE_LIMIT_TABLE` unset under default thresholds. -/
theorem c10_witness :
    (RP.envNoTable.bucketSet = true
      ∧ (RP.envNoTable.tableSet = false
        ∨ RP.envNoTable.inFlightRead = .error ()
        ∨ RP.envNoTable.smSet = false
        ∨ RP.envNoTable.runningRead = .error ())
      ∧ RP.defaultCfg.maxInFlight ≤ 999
      ∧ RP.defaultCfg.maxExecutions ≤ 999)
    ∧ ((RP.handler RP.envNoTable RP.defaultCfg).action = .skipped
      ∧ (RP.handler RP.envNoTable RP.defaultCfg).filesProcessed = 0
      ∧ (RP.handler RP.envNoTable RP.defaultCfg).s3 = RP.envNoTable.s3
      ∧ (RP.getCurrentInFlight RP.envNoTable.tableSet
          RP.envNoTable.inFlightRead = 999
        ∨ RP.getRunningExecutions RP.envNoTable.smSet
          RP.envNoTable.runningRead = 999)) :=
  ⟨⟨rfl, Or.inl rfl, by decide, by decide⟩,
    c10_capacity_read_failure_skips RP.envNoTable RP.defaultCfg rfl
      (Or.inl rfl) (by decide) (by decide)⟩
